import Mathlib

/-!
Verification development for the openalgo strategy-state core:
  * `services/strategy_exit_service.py` — the market exit engine
    (live-broker polling and sandbox LTP resolution);
  * `blueprints/strategy_state.py` — the P&L aggregator
    (`compute_strategy_state_summary`) and the manual-leg endpoints
    (`create_manual_leg_endpoint`, `manual_exit_leg_endpoint`).

Modelling conventions.  Python floats that carry prices/P&L are embedded as
`Rat`; JSON fields that may be absent or `null` are `Option`s; Python
truthiness of a number is `≠ 0` and of a string is `≠ ""`; early `return`s of
error responses become constructors of explicit result types.  Remote calls
(order placement, order status, quote lookup, the state-store commit) are
passed in as explicit parameters describing the responses the code would
observe, so each function is a pure function of its inputs and of that
transcript.  Log statements, message formatting and wall-clock sleeps have no
behavioural content and are not modelled.
-/

namespace OpenAlgo

/-! ## Market exit engine: `services/strategy_exit_service.py` -/

/-- ASCII lowercase of one character (the statuses and symbols the verified
code lowercases/uppercases are ASCII; `Char.toLower` itself is not
kernel-reducible, so the mapping is spelled out). -/
def charToLower (c : Char) : Char :=
  if 65 ≤ c.toNat ∧ c.toNat ≤ 90 then Char.ofNat (c.toNat + 32) else c

/-- ASCII uppercase of one character. -/
def charToUpper (c : Char) : Char :=
  if 97 ≤ c.toNat ∧ c.toNat ≤ 122 then Char.ofNat (c.toNat - 32) else c

/-- Python `str.lower()` restricted to ASCII. -/
def strToLower (s : String) : String := ⟨s.data.map charToLower⟩

/-- Python `str.upper()` restricted to ASCII. -/
def strToUpper (s : String) : String := ⟨s.data.map charToUpper⟩

/-- The `data` dictionary of a successful `get_order_status` response, with the
defaults of the source already applied: `order_status` defaults to `''`,
`average_price` and `price` default to `0`. -/
structure OrderStatusData where
  order_status : String
  average_price : Rat
  price : Rat
deriving DecidableEq, Repr

/-- One poll of `get_order_status`: either the call failed (`success` false or
response `status ≠ 'success'`), or it returned an order-data dictionary. -/
inductive PollResp where
  /-- `not success or status_response.get('status') != 'success'` -/
  | fetchErr
  /-- a successful status response carrying `data` -/
  | ok (d : OrderStatusData)
deriving DecidableEq, Repr

/-- Result of `_execute_live_market_exit` / `_execute_sandbox_market_exit`,
mirroring the `(success, fill_price, message)` triple: `filled p` is
`(True, p, …)`, the other constructors are the `(False, None, message)`
returns, distinguished by which message the source builds. -/
inductive ExitResult where
  /-- order executed, fill price resolved -/
  | filled (price : Rat)
  /-- "Order completed but invalid fill price" -/
  | invalidFillPrice (price : Rat)
  /-- "Order rejected: …" / "Order cancelled: …" -/
  | orderFailed (status : String)
  /-- "Order execution timeout after … seconds" -/
  | timeout
  /-- "Failed to place market exit order" (placement failed) -/
  | placeFailed
  /-- "No order ID returned from broker" -/
  | noOrderId
  /-- sandbox: "Unable to fetch LTP for … " -/
  | noPrice
deriving DecidableEq, Repr

/-- The body of one iteration of the polling `for` loop once a status response
arrived with `order_status = 'complete'`: `fill_price = average_price`, fall
back to `price` when non-positive, and fail when still non-positive. -/
def completeFill (d : OrderStatusData) : ExitResult :=
  let fill_price := if d.average_price ≤ 0 then d.price else d.average_price
  if fill_price ≤ 0 then .invalidFillPrice fill_price else .filled fill_price

/-- The polling loop of `_execute_live_market_exit`:
`for attempt in range(max_retries)` where attempt `i` observes `ts i`.  A
failed status fetch `continue`s; `'complete'` resolves via `completeFill`;
`'rejected'`/`'cancelled'` fail immediately; any other status `continue`s.
Falling off the loop is the timeout return. -/
def pollOrderStatus (ts : Nat → PollResp) : Nat → Nat → ExitResult
  | _, 0 => .timeout
  | i, n + 1 =>
    match ts i with
    | .fetchErr => pollOrderStatus ts (i + 1) n
    | .ok d =>
      let order_status := strToLower d.order_status
      if order_status = "complete" then completeFill d
      else if order_status = "rejected" ∨ order_status = "cancelled" then
        .orderFailed order_status
      else pollOrderStatus ts (i + 1) n

/-- The order dictionary built for the exit order (`'price': '0'`,
`'pricetype': 'MARKET'`). -/
structure OrderData where
  symbol : String
  exchange : String
  action : String
  quantity : Int
  price : String
  product : String
  pricetype : String
deriving DecidableEq, Repr

/-- Response of `place_order`: the `success` boolean, the response `status`
field and the optional `orderid`. -/
structure PlaceOrderResp where
  success : Bool
  status : String
  orderid : Option String
deriving DecidableEq, Repr

/-- `_execute_live_market_exit`: build the MARKET order, place it, then poll.
`place` is the broker's response to the order actually sent; `ts` is the
transcript of status polls; attempt counting starts at index 0. -/
def execute_live_market_exit (symbol exchange product : String) (quantity : Int)
    (action : String) (place : OrderData → PlaceOrderResp)
    (ts : Nat → PollResp) (max_retries : Nat) : ExitResult :=
  let order_data : OrderData :=
    { symbol := symbol, exchange := exchange, action := action,
      quantity := quantity, price := "0", product := product,
      pricetype := "MARKET" }
  let resp := place order_data
  if ¬ resp.success ∨ resp.status ≠ "success" then .placeFailed
  else
    match resp.orderid with
    | none => .noOrderId
    | some oid => if oid = "" then .noOrderId else pollOrderStatus ts 0 max_retries

/-- Default `max_retries` of `execute_market_exit`. -/
def DEFAULT_MAX_RETRIES : Nat := 10

/-- `ltp` resolution of `_execute_sandbox_market_exit`: start from
`get_ltp_value`; when `None` or non-positive, fall back to the quotes service —
when that call succeeds with response status `'success'`, `ltp` is overwritten
by the response's `data.ltp` field (possibly `None`), otherwise it keeps its
previous value. -/
def sandboxResolvedLtp (ltp0 : Option Rat) (qSuccess : Bool) (qStatus : String)
    (qLtp : Option Rat) : Option Rat :=
  match ltp0 with
  | some v =>
    if v ≤ 0 then
      if qSuccess ∧ qStatus = "success" then qLtp else some v
    else some v
  | none => if qSuccess ∧ qStatus = "success" then qLtp else none

/-- `_execute_sandbox_market_exit`: resolve a reference price (LTP with quote
fallback), fail when `not ltp or ltp <= 0`, then place the bookkeeping order
and accept a response status of `'success'` or `'analyze'`, returning the
resolved LTP as the fill price. -/
def execute_sandbox_market_exit (symbol exchange product : String) (quantity : Int)
    (action : String) (ltp0 : Option Rat) (qSuccess : Bool) (qStatus : String)
    (qLtp : Option Rat) (place : OrderData → PlaceOrderResp) : ExitResult :=
  let ltp := sandboxResolvedLtp ltp0 qSuccess qStatus qLtp
  match ltp with
  | none => .noPrice
  | some v =>
    if v ≤ 0 then .noPrice
    else
      let order_data : OrderData :=
        { symbol := symbol, exchange := exchange, action := action,
          quantity := quantity, price := "0", product := product,
          pricetype := "MARKET" }
      let resp := place order_data
      if ¬ resp.success ∨ (resp.status ≠ "success" ∧ resp.status ≠ "analyze") then
        .placeFailed
      else .filled v

/-- `execute_market_exit`: compute the opposite action and dispatch on the
analyzer-mode flag. -/
def execute_market_exit (leg_symbol leg_exchange leg_product : String)
    (leg_quantity : Int) (leg_side : String) (is_analyzer : Bool)
    (ltp0 : Option Rat) (qSuccess : Bool) (qStatus : String) (qLtp : Option Rat)
    (place : OrderData → PlaceOrderResp) (ts : Nat → PollResp)
    (max_retries : Nat) : ExitResult :=
  let exit_action := if leg_side = "BUY" then "SELL" else "BUY"
  if is_analyzer then
    execute_sandbox_market_exit leg_symbol leg_exchange leg_product leg_quantity
      exit_action ltp0 qSuccess qStatus qLtp place
  else
    execute_live_market_exit leg_symbol leg_exchange leg_product leg_quantity
      exit_action place ts max_retries

/-- A poll response that lets the loop continue: a status-fetch error, or a
status that is neither `complete` nor `rejected`/`cancelled`. -/
def PollResp.pending : PollResp → Prop
  | .fetchErr => True
  | .ok d =>
    strToLower d.order_status ≠ "complete" ∧ strToLower d.order_status ≠ "rejected" ∧
      strToLower d.order_status ≠ "cancelled"

instance : DecidablePred PollResp.pending := by
  intro r
  cases r with
  | fetchErr => exact isTrue trivial
  | ok d => exact inferInstanceAs (Decidable (_ ∧ _ ∧ _))

/-! ## Strategy state data model: `blueprints/strategy_state.py` -/

/-- One entry of `trade_history`.  Only the `pnl` field is read by the code
under verification; it may be missing or `null`. -/
structure ClosedTrade where
  pnl : Option Rat
deriving DecidableEq, Repr

/-- A leg dictionary, restricted to the fields the verified code reads.
Every field may be absent (`None`) in the stored dictionary. -/
structure Leg where
  status : Option String
  entry_price : Option Rat
  side : Option String
  leg_type : Option String
  symbol : Option String
  exchange : Option String
  product : Option String
  quantity : Option Int
  unrealized_pnl : Option Rat
deriving DecidableEq, Repr

/-- A strategy state dictionary.  `legs` models the `legs` dict as an
association list in iteration order (values may be `None`, which the
aggregator guards against with `(leg or {})`); `config_product` is
`state.get('config', {}).get('product')`. -/
structure StrategyState where
  status : Option String
  legs : List (String × Option Leg)
  trade_history : List (Option ClosedTrade)
  config_product : Option String
deriving DecidableEq, Repr

/-- Module-level constant `OPEN_LEG_STATUSES`. -/
def OPEN_LEG_STATUSES : List String := ["IN_POSITION", "PENDING_ENTRY", "PENDING_EXIT"]

/-- `(leg or {}).get('status', '')`. -/
def legStatus (leg : Option Leg) : String :=
  match leg with
  | none => ""
  | some l => l.status.getD ""

/-- `float((leg or {}).get('unrealized_pnl', 0) or 0)`: a missing field, a
`null` field and a zero field all read as `0`. -/
def legUnrealizedPnl (leg : Option Leg) : Rat :=
  match leg with
  | none => 0
  | some l => l.unrealized_pnl.getD 0

/-- `float((t or {}).get('pnl', 0) or 0)`. -/
def tradePnl (t : Option ClosedTrade) : Rat :=
  match t with
  | none => 0
  | some tr => tr.pnl.getD 0

/-- Output of `compute_strategy_state_summary`. -/
structure StrategySummary where
  total_realized_pnl : Rat
  total_unrealized_pnl : Rat
  total_pnl : Rat
  trade_history_pnl : Rat
  open_positions_count : Nat
  idle_positions_count : Nat
  total_trades : Nat
deriving DecidableEq, Repr

/-- The loop body of `compute_strategy_state_summary`: accumulate
`(total_unrealized_pnl, open_positions_count, idle_positions_count)` over one
`legs.items()` entry. -/
def summaryLegStep (acc : Rat × Nat × Nat) (kv : String × Option Leg) : Rat × Nat × Nat :=
  let leg_status := legStatus kv.2
  if leg_status ∈ OPEN_LEG_STATUSES then
    (acc.1 + legUnrealizedPnl kv.2, acc.2.1 + 1, acc.2.2)
  else if leg_status = "IDLE" then (acc.1, acc.2.1, acc.2.2 + 1)
  else acc

/-- `compute_strategy_state_summary`: one pass over `legs.items()` accumulating
unrealized P&L and the open/idle counters, then sum `pnl` over
`trade_history`. -/
def compute_strategy_state_summary (state : StrategyState) : StrategySummary :=
  let acc := state.legs.foldl summaryLegStep (0, 0, 0)
  let total_unrealized_pnl := acc.1
  let open_positions_count := acc.2.1
  let idle_positions_count := acc.2.2
  let total_realized_pnl := (state.trade_history.map tradePnl).sum
  { total_realized_pnl := total_realized_pnl
    total_unrealized_pnl := total_unrealized_pnl
    total_pnl := total_realized_pnl + total_unrealized_pnl
    trade_history_pnl := total_realized_pnl
    open_positions_count := open_positions_count
    idle_positions_count := idle_positions_count
    total_trades := state.trade_history.length }

/-- Decidable form of "this legs entry is in an open status". -/
def legOpen (kv : String × Option Leg) : Bool :=
  legStatus kv.2 ∈ OPEN_LEG_STATUSES

/-- Decidable form of "this legs entry is IDLE". -/
def legIdle (kv : String × Option Leg) : Bool :=
  legStatus kv.2 = "IDLE"

/-! ## `create_manual_leg_endpoint` (AddManualLeg) -/

/-- The JSON request body of `POST /strategy-state/<id>/manual-leg`, with every
field optional (absent keys read as `None`).  Numeric fields are embedded
already converted; the `float(...)`/`int(...)` conversion-failure branches of
the source concern non-numeric JSON values and are outside this typed model. -/
structure AddLegRequest where
  leg_key : Option String
  symbol : Option String
  exchange : Option String
  product : Option String
  quantity : Option Int
  side : Option String
  entry_price : Option Rat
  sl_percent : Option Rat
  target_percent : Option Rat
  leg_pair_name : Option String
  is_main_leg : Option Bool
  reentry_limit : Option Int
  reexecute_limit : Option Int
  mode : Option String
  wait_trade_percent : Option Rat
  wait_baseline_price : Option Rat
deriving Repr

/-- The keyword arguments the endpoint passes to `add_manual_strategy_leg`
after validation (the persisted new leg). -/
structure NewLeg where
  leg_key : String
  symbol : String
  exchange : String
  product : String
  quantity : Int
  side : String
  entry_price : Option Rat
  sl_price : Option Rat
  target_price : Option Rat
  sl_percent : Option Rat
  target_percent : Option Rat
  leg_pair_name : Option String
  is_main_leg : Bool
  reentry_limit : Option Int
  reexecute_limit : Option Int
  status : String
  wait_trade_percent : Option Rat
  wait_baseline_price : Option Rat
deriving DecidableEq, Repr

/-- The SL-price block of the endpoint: when `entry_price` is known a supplied
`sl_percent` must be positive and yields
`entry_price * (1 - sl_percent)` for BUY / `entry_price * (1 + sl_percent)`
for SELL; without a known entry price a supplied percent is still
range-validated; otherwise `sl_value` stays `None`. -/
def slCalc (entry_price : Option Rat) (side : String) (sl_percent : Option Rat) :
    Except String (Option Rat) :=
  match entry_price, sl_percent with
  | some e, some p =>
    if p ≤ 0 then .error "sl_percent must be positive"
    else .ok (some (if side = "BUY" then e * (1 - p) else e * (1 + p)))
  | none, some p =>
    if p ≤ 0 then .error "sl_percent must be positive" else .ok none
  | _, none => .ok none

/-- The Target-price block of the endpoint, mirrored from `slCalc`:
`entry_price * (1 + target_percent)` for BUY /
`entry_price * (1 - target_percent)` for SELL. -/
def targetCalc (entry_price : Option Rat) (side : String) (target_percent : Option Rat) :
    Except String (Option Rat) :=
  match entry_price, target_percent with
  | some e, some p =>
    if p ≤ 0 then .error "target_percent must be positive"
    else .ok (some (if side = "BUY" then e * (1 + p) else e * (1 - p)))
  | none, some p =>
    if p ≤ 0 then .error "target_percent must be positive" else .ok none
  | _, none => .ok none

/-- The request-validation part of `create_manual_leg_endpoint`, in source
order: mode check, required-field checks, entry-price requirement (TRACK
only), side normalization, status/wait-entry checks (NEW only), SL/Target
computation, reentry/reexecute range checks.  Errors are the HTTP-400
rejections of the endpoint. -/
def validate_manual_leg (req : AddLegRequest) : Except String NewLeg :=
  let mode := req.mode.getD "TRACK"
  if ¬ (mode = "TRACK" ∨ mode = "NEW") then .error "mode must be TRACK or NEW"
  else
    match req.leg_key, req.symbol, req.exchange, req.product, req.quantity,
        req.side, req.is_main_leg with
    | some leg_key, some symbol, some exchange, some product, some quantity,
        some side0, some is_main_leg =>
      if mode ≠ "NEW" ∧ req.entry_price = none then .error "entry_price is required"
      else
        let entry_price := req.entry_price
        let side := strToUpper side0
        if ¬ (side = "BUY" ∨ side = "SELL") then .error "side must be BUY or SELL"
        else
          let status := if mode = "NEW" then "PENDING_ENTRY" else "IN_POSITION"
          if mode = "NEW" ∧ (match req.wait_trade_percent with
              | some w => decide (w ≤ 0)
              | none => false) = true then .error "wait_trade_percent must be positive"
          else if mode = "NEW" ∧ (req.wait_trade_percent ≠ none ∧
              req.wait_baseline_price = none) then
            .error "wait_baseline_price is required for wait entry"
          else
            match slCalc entry_price side req.sl_percent with
            | .error msg => .error msg
            | .ok sl_value =>
              match targetCalc entry_price side req.target_percent with
              | .error msg => .error msg
              | .ok target_value =>
                if (match req.reentry_limit with
                    | some v => decide (v < 0)
                    | none => false) = true then .error "reentry_limit must be non-negative"
                else if (match req.reexecute_limit with
                    | some v => decide (v < 0)
                    | none => false) = true then .error "reexecute_limit must be non-negative"
                else
                  .ok { leg_key := leg_key, symbol := symbol, exchange := exchange,
                        product := product, quantity := quantity, side := side,
                        entry_price := entry_price, sl_price := sl_value,
                        target_price := target_value, sl_percent := req.sl_percent,
                        target_percent := req.target_percent,
                        leg_pair_name := req.leg_pair_name,
                        is_main_leg := is_main_leg,
                        reentry_limit := req.reentry_limit,
                        reexecute_limit := req.reexecute_limit, status := status,
                        wait_trade_percent := (if mode = "NEW" then req.wait_trade_percent else req.wait_trade_percent),
                        wait_baseline_price := req.wait_baseline_price }
    | _, _, _, _, _, _, _ => .error "required field missing"

/-- Outcome of the AddManualLeg operation, by HTTP class: 400 validation
rejection, 409 duplicate leg, 404 unknown instance, or success carrying the
persisted leg and the updated store. -/
inductive AddLegOutcome where
  | invalidArg (msg : String)
  | duplicateLeg
  | stateNotFound
  | ok (leg : NewLeg) (store : List (String × StrategyState))
deriving Repr

/-- The stored form of a new manual leg (the fields of `Leg` that the rest of
the verified code reads back). -/
def storedLeg (leg : NewLeg) : Leg :=
  { status := some leg.status, entry_price := leg.entry_price,
    side := some leg.side, leg_type := some "MANUAL", symbol := some leg.symbol,
    exchange := some leg.exchange, product := some leg.product,
    quantity := some leg.quantity, unrealized_pnl := none }

/-- Modelled from the spec: `database.strategy_state_db.add_manual_strategy_leg`
is not under `src/` (the endpoint only calls it).  Per the spec it fails with
`StrategyStateNotFoundError` when `instance_id` is unknown, with
`StrategyStateDuplicateLegError` when `leg_key` already exists in the
strategy's `legs` (without overwriting the existing leg), and otherwise
persists the new leg and returns it. -/
def add_manual_strategy_leg (store : List (String × StrategyState))
    (instance_id : String) (leg : NewLeg) : AddLegOutcome :=
  match store.lookup instance_id with
  | none => .stateNotFound
  | some st =>
    if (st.legs.lookup leg.leg_key).isSome then .duplicateLeg
    else
      let st' : StrategyState :=
        { st with legs := st.legs ++ [(leg.leg_key, some (storedLeg leg))] }
      .ok leg (store.map fun kv => if kv.1 = instance_id then (kv.1, st') else kv)

/-- `create_manual_leg_endpoint`: validate the request, then delegate to
`add_manual_strategy_leg`, mapping its exceptions to the 409/404 responses. -/
def create_manual_leg_endpoint (store : List (String × StrategyState))
    (instance_id : String) (req : AddLegRequest) : AddLegOutcome :=
  match validate_manual_leg req with
  | .error msg => .invalidArg msg
  | .ok leg => add_manual_strategy_leg store instance_id leg

/-- `true` exactly on the endpoint's HTTP-400 validation rejections. -/
def AddLegOutcome.isInvalidArg : AddLegOutcome → Bool
  | .invalidArg _ => true
  | _ => false

/-! ## `manual_exit_leg_endpoint` (ManualExitLeg) -/

/-- Python truthiness of an optional string (`if not s:` fails for `None` and
`''`). -/
def truthyStr (s : Option String) : Bool :=
  match s with
  | none => false
  | some v => v ≠ ""

/-- Python truthiness of an optional float (`if x and …` fails for `None` and
`0`). -/
def truthyNum (r : Option Rat) : Bool :=
  match r with
  | none => false
  | some v => v ≠ 0

/-- `pat` occurs as a substring of `s` (Python `pat in s`). -/
def strContains (s pat : String) : Bool :=
  (List.range (s.length + 1)).any fun i => pat.data.isPrefixOf (s.data.drop i)

/-- The exchange-inference fallback of `manual_exit_leg_endpoint` (applied when
the leg has no `exchange`): option-looking symbols (containing `CE`/`PE`) map
to `BFO` for the SENSEX/BANKEX family and to `NFO` otherwise; everything else
maps to `NSE`. -/
def inferExchange (leg_symbol : String) : String :=
  let symbol_upper := strToUpper leg_symbol
  if strContains symbol_upper "CE" ∨ strContains symbol_upper "PE" then
    if strContains symbol_upper "SENSEX" ∨ strContains symbol_upper "BANKEX" then "BFO"
    else if strContains symbol_upper "NIFTY" ∨ strContains symbol_upper "BANKNIFTY" ∨
        strContains symbol_upper "FINNIFTY" ∨ strContains symbol_upper "MIDCPNIFTY" then "NFO"
    else "NFO"
  else "NSE"

/-- The JSON request body of the manual-exit endpoint. -/
structure ExitRequest where
  exit_price : Option Rat
  exit_status : Option String
  exit_at_market : Bool
deriving Repr

/-- The read-only collaborators the manual-exit endpoint consults, as the
responses the code would observe: the session user and API-key lookups and the
inputs of the market exit engine (mode flag, market-data and broker
responses).  The `manual_exit_strategy_leg` commit and the
`create_strategy_override` publication are separate collaborators, passed to
the endpoint as their own success flags. -/
structure ExitEnv where
  username : Option String
  api_key : Option String
  is_analyzer : Bool
  ltp0 : Option Rat
  qSuccess : Bool
  qStatus : String
  qLtp : Option Rat
  place : OrderData → PlaceOrderResp
  ts : Nat → PollResp
  max_retries : Nat

/-- Outcome of the manual-exit endpoint.  `ok price status override` means the
store commit `manual_exit_strategy_leg(instance_id, leg_key, exit_price=price,
exit_status=status, …)` was performed and the endpoint answered HTTP 200;
`override` is the `(override_type, new_value)` of the `MANUAL_EXIT` override
that was created, or `none` when none was created (not attempted, or attempted
and swallowed). -/
inductive ExitOutcome where
  | err (http : Nat) (msg : String)
  | ok (exit_price : Option Rat) (exit_status : String) (override : Option (String × Option Rat))
deriving DecidableEq, Repr

/-- Exit-status resolution of the endpoint: market exits default a falsy
`exit_status` to `MANUAL_EXIT` and otherwise admit SL_HIT/TARGET_HIT/
MANUAL_EXIT; priced exits require SL_HIT or TARGET_HIT. -/
def resolveExitStatus (req : ExitRequest) : Except (Nat × String) String :=
  if req.exit_at_market then
    if ¬ truthyStr req.exit_status then .ok "MANUAL_EXIT"
    else
      let s := req.exit_status.getD ""
      if s = "SL_HIT" ∨ s = "TARGET_HIT" ∨ s = "MANUAL_EXIT" then .ok s
      else .error (400, "exit_status must be SL_HIT, TARGET_HIT, or MANUAL_EXIT")
  else
    if ¬ truthyStr req.exit_status then
      .error (400, "exit_status is required for manual price exits")
    else
      let s := req.exit_status.getD ""
      if s = "SL_HIT" ∨ s = "TARGET_HIT" then .ok s
      else .error (400, "exit_status must be SL_HIT or TARGET_HIT for manual price exits")

/-- Exit-price validation of the endpoint: market exits clear the price (it is
resolved later by the engine); priced exits require a positive number. -/
def resolveRequestExitPrice (req : ExitRequest) : Except (Nat × String) (Option Rat) :=
  if req.exit_at_market then .ok none
  else
    match req.exit_price with
    | none => .error (400, "exit_price is required when exit_at_market is false")
    | some p =>
      if p ≤ 0 then .error (400, "exit_price must be positive") else .ok (some p)

/-- The market-exit block of the endpoint: session/API-key resolution, leg
field extraction with the config-product and exchange/product fallbacks, and
the call into `execute_market_exit`; succeeds with the engine's fill price. -/
def marketExitPrice (state : StrategyState) (leg : Leg) (env : ExitEnv) :
    Except (Nat × String) Rat :=
  if ¬ truthyStr env.username then .error (401, "User not found in session")
  else if ¬ truthyStr env.api_key then .error (401, "API key not found for user")
  else
    let leg_product0 := if truthyStr leg.product then leg.product else state.config_product
    if ¬ truthyStr leg.symbol then .error (400, "Symbol is required for market exit")
    else
      let leg_symbol := (leg.symbol).getD ""
      match leg.quantity with
      | none => .error (400, "Quantity is required for market exit")
      | some q =>
        if q ≤ 0 then .error (400, "Quantity is required for market exit")
        else if ¬ truthyStr leg.side then
          .error (400, "Side (BUY/SELL) is required for market exit")
        else
          let leg_side := (leg.side).getD ""
          let leg_exchange :=
            if truthyStr leg.exchange then (leg.exchange).getD ""
            else inferExchange leg_symbol
          let leg_product :=
            if truthyStr leg_product0 then leg_product0.getD "" else "MIS"
          match execute_market_exit leg_symbol leg_exchange leg_product q leg_side
              env.is_analyzer env.ltp0 env.qSuccess env.qStatus env.qLtp env.place
              env.ts env.max_retries with
          | .filled f => .ok f
          | _ => .error (400, "Market exit failed")

/-- The side/entry-price cross-check applied to priced exits: returns the
HTTP-400 rejection the endpoint produces, or `none` when the price is
consistent.  The comparisons are exactly the source's (`<=`/`>=` on the error
side, so equality is rejected). -/
def crossCheckExitPrice (side : String) (entry_price exit_price : Rat)
    (exit_status : String) : Option (Nat × String) :=
  if exit_status = "TARGET_HIT" then
    if side = "BUY" ∧ exit_price ≤ entry_price then
      some (400, "For BUY positions with TARGET_HIT, exit price must be greater than entry price")
    else if side = "SELL" ∧ entry_price ≤ exit_price then
      some (400, "For SELL positions with TARGET_HIT, exit price must be less than entry price")
    else none
  else if exit_status = "SL_HIT" then
    if side = "BUY" ∧ entry_price ≤ exit_price then
      some (400, "For BUY positions with SL_HIT, exit price must be less than entry price")
    else if side = "SELL" ∧ exit_price ≤ entry_price then
      some (400, "For SELL positions with SL_HIT, exit price must be greater than entry price")
    else none
  else none

/-- What the validation/lookup/price-resolution part of the endpoint hands to
the commit-and-notify part: the exit price to commit, the exit status, and the
`leg_type`/strategy-status pair remembered for override creation. -/
structure ResolvedExit where
  exit_price : Option Rat
  exit_status : String
  leg_type : String
  strategy_status : String
deriving DecidableEq, Repr

/-- The part of `manual_exit_leg_endpoint` before the store commit, in source
order: exit-status and exit-price validation, state and leg lookup,
IN_POSITION check, capture of `leg_type`/strategy status, then market
execution (market exits) or the side/entry cross-check (priced exits, applied
only when the leg's `entry_price` and `side` are truthy).  A stored `None`
leg value makes the source raise inside the handler, answered as HTTP 500. -/
def manual_exit_resolve (state? : Option StrategyState) (leg_key : String)
    (req : ExitRequest) (env : ExitEnv) : Except (Nat × String) ResolvedExit :=
  match resolveExitStatus req with
  | .error e => .error e
  | .ok exit_status =>
    match resolveRequestExitPrice req with
    | .error e => .error e
    | .ok exit_price0 =>
      match state? with
      | none => .error (404, "Strategy state not found")
      | some state =>
        match state.legs.lookup leg_key with
        | none => .error (404, "Leg not found")
        | some none => .error (500, "internal error")
        | some (some leg) =>
          if leg.status ≠ some "IN_POSITION" then
            .error (400, "Can only exit legs with IN_POSITION status")
          else
            let leg_type := leg.leg_type.getD "MANUAL"
            let strategy_status := state.status.getD "COMPLETED"
            if req.exit_at_market then
              match marketExitPrice state leg env with
              | .error e => .error e
              | .ok f =>
                .ok { exit_price := some f, exit_status := exit_status,
                      leg_type := leg_type, strategy_status := strategy_status }
            else
              match exit_price0 with
              | none =>
                .ok { exit_price := none, exit_status := exit_status,
                      leg_type := leg_type, strategy_status := strategy_status }
              | some p =>
                if truthyNum leg.entry_price ∧ truthyStr leg.side then
                  match crossCheckExitPrice ((leg.side).getD "")
                      ((leg.entry_price).getD 0) p exit_status with
                  | some e => .error e
                  | none =>
                    .ok { exit_price := some p, exit_status := exit_status,
                          leg_type := leg_type, strategy_status := strategy_status }
                else
                  .ok { exit_price := some p, exit_status := exit_status,
                        leg_type := leg_type, strategy_status := strategy_status }

/-- `manual_exit_leg_endpoint`: resolve, commit through
`manual_exit_strategy_leg` (`db_ok` is that collaborator's success), then
best-effort `MANUAL_EXIT` override creation when `leg_type != 'MANUAL'` and
the strategy is `RUNNING` (`override_ok` is the override channel's success; a
creation failure is logged and swallowed, leaving the committed exit and the
HTTP-200 response intact). -/
def manual_exit_leg_endpoint (state? : Option StrategyState) (leg_key : String)
    (req : ExitRequest) (env : ExitEnv) (db_ok override_ok : Bool) : ExitOutcome :=
  match manual_exit_resolve state? leg_key req env with
  | .error (c, m) => .err c m
  | .ok r =>
    if ¬ db_ok then .err 500 "Strategy State DB error during manual exit"
    else
      let override :=
        if r.leg_type ≠ "MANUAL" ∧ r.strategy_status = "RUNNING" then
          if override_ok then some ("MANUAL_EXIT", r.exit_price) else none
        else none
      .ok r.exit_price r.exit_status override

/-- `true` exactly on the endpoint's HTTP-200 (committed) outcomes. -/
def ExitOutcome.isOk : ExitOutcome → Bool
  | .ok _ _ _ => true
  | .err _ _ => false

/-! ## Helper lemmas: the aggregator's single pass equals filter/count/sum -/

theorem summaryLegStep_fold (legs : List (String × Option Leg)) (u : Rat) (o i : Nat) :
    legs.foldl summaryLegStep (u, o, i)
      = (u + ((legs.filter legOpen).map (fun kv => legUnrealizedPnl kv.2)).sum,
         o + legs.countP legOpen, i + legs.countP legIdle) := by
  induction legs generalizing u o i with
  | nil => simp
  | cons kv rest ih =>
    by_cases hop : legStatus kv.2 ∈ OPEN_LEG_STATUSES
    · have hid : ¬ legStatus kv.2 = "IDLE" := by
        intro h
        rw [h] at hop
        simp [OPEN_LEG_STATUSES] at hop
      have hstep : summaryLegStep (u, o, i) kv = (u + legUnrealizedPnl kv.2, o + 1, i) := by
        simp [summaryLegStep, hop]
      have hopb : legOpen kv = true := by simp [legOpen, hop]
      have hidb : legIdle kv = false := by simp [legIdle, hid]
      rw [List.foldl_cons, hstep, ih, List.filter_cons, List.countP_cons,
        List.countP_cons, hopb, hidb]
      simp only [if_true, List.map_cons, List.sum_cons, Prod.mk.injEq]
      refine ⟨by ring, by omega, by simp⟩
    · by_cases hid : legStatus kv.2 = "IDLE"
      · have hmem : ("IDLE" : String) ∉ OPEN_LEG_STATUSES := by decide
        have hstep : summaryLegStep (u, o, i) kv = (u, o, i + 1) := by
          simp [summaryLegStep, hop, hid, hmem]
        have hopb : legOpen kv = false := by simp [legOpen, hop]
        have hidb : legIdle kv = true := by simp [legIdle, hid]
        rw [List.foldl_cons, hstep, ih, List.filter_cons, List.countP_cons,
          List.countP_cons, hopb, hidb]
        simp only [Bool.false_eq_true, if_false, if_true, Prod.mk.injEq]
        refine ⟨by simp, by omega, by omega⟩
      · have hstep : summaryLegStep (u, o, i) kv = (u, o, i) := by
          simp [summaryLegStep, hop, hid]
        have hopb : legOpen kv = false := by simp [legOpen, hop]
        have hidb : legIdle kv = false := by simp [legIdle, hid]
        rw [List.foldl_cons, hstep, ih, List.filter_cons, List.countP_cons,
          List.countP_cons, hopb, hidb]
        simp

theorem summary_realized_eq (state : StrategyState) :
    (compute_strategy_state_summary state).total_realized_pnl
      = (state.trade_history.map tradePnl).sum := rfl

/-- C2: for every StrategyState snapshot, `total_realized_pnl` is the sum of
`pnl` over every entry of `trade_history` and over nothing else;
`total_unrealized_pnl` is the sum of `unrealized_pnl` over exactly the legs in
an open status (IN_POSITION / PENDING_ENTRY / PENDING_EXIT) — any other
status, including closed and IDLE legs, contributes nothing;
`idle_positions_count` counts the IDLE legs, `open_positions_count` the open
legs, `total_trades` the trade-history entries; missing or `null`
`pnl`/`unrealized_pnl` fields count as zero (`tradePnl`/`legUnrealizedPnl`);
and `total_pnl = total_realized_pnl + total_unrealized_pnl`. -/
theorem strategy_summary_partition_spec (state : StrategyState) :
    (compute_strategy_state_summary state).total_realized_pnl
        = (state.trade_history.map tradePnl).sum ∧
    (compute_strategy_state_summary state).total_unrealized_pnl
        = ((state.legs.filter legOpen).map (fun kv => legUnrealizedPnl kv.2)).sum ∧
    (compute_strategy_state_summary state).open_positions_count
        = state.legs.countP legOpen ∧
    (compute_strategy_state_summary state).idle_positions_count
        = state.legs.countP legIdle ∧
    (compute_strategy_state_summary state).total_trades
        = state.trade_history.length ∧
    (compute_strategy_state_summary state).total_pnl
        = (compute_strategy_state_summary state).total_realized_pnl
          + (compute_strategy_state_summary state).total_unrealized_pnl := by
  unfold compute_strategy_state_summary
  rw [summaryLegStep_fold]
  simp

/-- C9: the P&L aggregator is a pure function: permuting `trade_history`
leaves `total_realized_pnl` unchanged, and re-running the aggregator on an
unchanged snapshot yields an identical summary. -/
theorem strategy_summary_pure_perm (state : StrategyState)
    (history : List (Option ClosedTrade)) (hperm : history.Perm state.trade_history) :
    (compute_strategy_state_summary
        { state with trade_history := history }).total_realized_pnl
      = (compute_strategy_state_summary state).total_realized_pnl ∧
    compute_strategy_state_summary state = compute_strategy_state_summary state := by
  refine ⟨?_, rfl⟩
  rw [summary_realized_eq, summary_realized_eq]
  exact List.Perm.sum_eq (hperm.map tradePnl)

/-- Witness for C9 at a concrete two-trade history and its swap. -/
theorem strategy_summary_pure_perm_witness :
    (compute_strategy_state_summary
        { status := none, legs := [],
          trade_history := [some ⟨some 2⟩, some ⟨some 1⟩],
          config_product := none }).total_realized_pnl
      = (compute_strategy_state_summary
        { status := none, legs := [],
          trade_history := [some ⟨some 1⟩, some ⟨some 2⟩],
          config_product := none }).total_realized_pnl :=
  (strategy_summary_pure_perm
    { status := none, legs := [],
      trade_history := [some ⟨some 1⟩, some ⟨some 2⟩], config_product := none }
    [some ⟨some 2⟩, some ⟨some 1⟩] (by decide)).1

/-! ## Helper lemmas: the live polling loop -/

theorem pollOrderStatus_pending_step (ts : Nat → PollResp) (i n : Nat)
    (h : (ts i).pending) :
    pollOrderStatus ts i (n + 1) = pollOrderStatus ts (i + 1) n := by
  cases hts : ts i with
  | fetchErr => simp [pollOrderStatus, hts]
  | ok d =>
    rw [hts] at h
    obtain ⟨h1, h2, h3⟩ := h
    simp [pollOrderStatus, hts, h1, h2, h3]

theorem pollOrderStatus_skip_pending (ts : Nat → PollResp) (k i n : Nat)
    (hk : k ≤ n) (h : ∀ j, j < k → (ts (i + j)).pending) :
    pollOrderStatus ts i n = pollOrderStatus ts (i + k) (n - k) := by
  induction k generalizing i n with
  | zero => simp
  | succ m ih =>
    obtain ⟨n', rfl⟩ : ∃ n', n = n' + 1 := ⟨n - 1, by omega⟩
    rw [pollOrderStatus_pending_step ts i n' (by simpa using h 0 (Nat.succ_pos m))]
    have hrec := ih (i + 1) n' (by omega) (fun j hj => by
      have hh := h (j + 1) (by omega)
      have heq : i + (j + 1) = i + 1 + j := by omega
      rwa [heq] at hh)
    rw [hrec]
    have h1 : i + 1 + m = i + (m + 1) := by omega
    have h2 : n' - m = n' + 1 - (m + 1) := by omega
    rw [h1, h2]

theorem pollOrderStatus_all_pending (ts : Nat → PollResp) (n : Nat)
    (h : ∀ j, j < n → (ts j).pending) :
    pollOrderStatus ts 0 n = .timeout := by
  rw [pollOrderStatus_skip_pending ts n 0 n le_rfl (by simpa using h)]
  simp [pollOrderStatus]

theorem completeFill_eq (d : OrderStatusData) :
    completeFill d
      = (if 0 < d.average_price then .filled d.average_price
         else if 0 < d.price then .filled d.price
         else .invalidFillPrice d.price) := by
  by_cases h : d.average_price ≤ 0 <;> by_cases h2 : d.price ≤ 0 <;>
    simp [completeFill, h, h2, not_lt.mpr, not_le.mp, lt_of_not_ge]

theorem pollOrderStatus_terminal (ts : Nat → PollResp) (k n : Nat)
    (d : OrderStatusData) (hk : k < n) (hpre : ∀ j, j < k → (ts j).pending)
    (hts : ts k = .ok d) :
    (strToLower d.order_status = "complete" →
      pollOrderStatus ts 0 n = completeFill d) ∧
    (strToLower d.order_status = "rejected" ∨ strToLower d.order_status = "cancelled" →
      pollOrderStatus ts 0 n = .orderFailed (strToLower d.order_status)) := by
  rw [pollOrderStatus_skip_pending ts k 0 n (le_of_lt hk) (by simpa using hpre)]
  obtain ⟨m, hm⟩ : ∃ m, n - k = m + 1 := ⟨n - k - 1, by omega⟩
  rw [Nat.zero_add, hm]
  constructor
  · intro hcomp
    simp [pollOrderStatus, hts, hcomp]
  · rintro (hrej | hrej) <;>
      simp [pollOrderStatus, hts, hrej]

/-- C1: in live mode the market exit engine places one MARKET order for the
opposite side (`hplace` is about exactly that order) and then polls order
status at most `max_retries` times, one transcript slot per attempt whether
the status fetch errors or returns a pending status.  A poll `'complete'`
resolves success at `average_price`, falling back to the `price` field when
`average_price` is non-positive, and fails (`invalidFillPrice`) when both are
non-positive; `'rejected'`/`'cancelled'` fail immediately with no further
polling; a transcript whose first `max_retries` slots are all pending or
errored resolves Timeout.  In particular, 9 polls of `'open'` then
`'complete'` with `average_price = 50.5` resolve success at `50.5`; 10 polls
of `'open'` with ceiling 10 resolve Timeout; a first poll of `'rejected'`
fails immediately. -/
theorem live_market_exit_polling_spec (symbol exchange product : String)
    (quantity : Int) (side : String) (ltp0 : Option Rat) (qSuccess : Bool)
    (qStatus : String) (qLtp : Option Rat) (place : OrderData → PlaceOrderResp)
    (ts : Nat → PollResp) (max_retries : Nat) (oid : String)
    (hplace : place
        { symbol := symbol, exchange := exchange,
          action := if side = "BUY" then "SELL" else "BUY",
          quantity := quantity, price := "0", product := product,
          pricetype := "MARKET" }
        = { success := true, status := "success", orderid := some oid })
    (hoid : oid ≠ "") :
    (execute_market_exit symbol exchange product quantity side false ltp0
        qSuccess qStatus qLtp place ts max_retries
      = pollOrderStatus ts 0 max_retries) ∧
    ((∀ j, j < max_retries → (ts j).pending) →
      execute_market_exit symbol exchange product quantity side false ltp0
          qSuccess qStatus qLtp place ts max_retries = .timeout) ∧
    (∀ k d, (∀ j, j < k → (ts j).pending) → k < max_retries → ts k = .ok d →
      strToLower d.order_status = "complete" →
      execute_market_exit symbol exchange product quantity side false ltp0
          qSuccess qStatus qLtp place ts max_retries
        = (if 0 < d.average_price then .filled d.average_price
           else if 0 < d.price then .filled d.price
           else .invalidFillPrice d.price)) ∧
    (∀ k d, (∀ j, j < k → (ts j).pending) → k < max_retries → ts k = .ok d →
      (strToLower d.order_status = "rejected" ∨ strToLower d.order_status = "cancelled") →
      execute_market_exit symbol exchange product quantity side false ltp0
          qSuccess qStatus qLtp place ts max_retries
        = .orderFailed (strToLower d.order_status)) ∧
    (pollOrderStatus
        (fun i => if i < 9 then .ok ⟨"open", 0, 0⟩
                  else .ok ⟨"complete", (101 : Rat)/2, 0⟩) 0 DEFAULT_MAX_RETRIES
      = .filled ((101 : Rat)/2)) ∧
    (pollOrderStatus (fun _ => .ok ⟨"open", 0, 0⟩) 0 DEFAULT_MAX_RETRIES
      = .timeout) ∧
    (pollOrderStatus (fun _ => .ok ⟨"rejected", 0, 0⟩) 0 DEFAULT_MAX_RETRIES
      = .orderFailed "rejected") := by
  have hmain : execute_market_exit symbol exchange product quantity side false
      ltp0 qSuccess qStatus qLtp place ts max_retries
      = pollOrderStatus ts 0 max_retries := by
    simp [execute_market_exit, execute_live_market_exit, hplace, hoid]
  have hopen : (PollResp.ok ⟨"open", 0, 0⟩).pending := by decide
  refine ⟨hmain, ?_, ?_, ?_, ?_, ?_, ?_⟩
  · intro hall
    rw [hmain]
    exact pollOrderStatus_all_pending ts max_retries hall
  · intro k d hpre hk hts hcomp
    rw [hmain, (pollOrderStatus_terminal ts k max_retries d hk hpre hts).1 hcomp,
      completeFill_eq]
  · intro k d hpre hk hts hrej
    rw [hmain]
    exact (pollOrderStatus_terminal ts k max_retries d hk hpre hts).2 hrej
  · have h := (pollOrderStatus_terminal
      (fun i => if i < 9 then .ok ⟨"open", 0, 0⟩
                else .ok ⟨"complete", (101 : Rat)/2, 0⟩)
      9 DEFAULT_MAX_RETRIES ⟨"complete", (101 : Rat)/2, 0⟩ (by decide)
      (fun j hj => by
        show (if j < 9 then PollResp.ok ⟨"open", 0, 0⟩
              else PollResp.ok ⟨"complete", (101 : Rat)/2, 0⟩).pending
        rw [if_pos hj]
        exact hopen) rfl).1 (by decide)
    rw [h, completeFill_eq]
    norm_num
  · exact pollOrderStatus_all_pending _ DEFAULT_MAX_RETRIES (fun _ _ => hopen)
  · have h := (pollOrderStatus_terminal (fun _ => .ok ⟨"rejected", 0, 0⟩)
      0 DEFAULT_MAX_RETRIES ⟨"rejected", 0, 0⟩ (by decide)
      (fun j hj => absurd hj (Nat.not_lt_zero j)) rfl).2 (Or.inl (by decide))
    rw [h]
    decide

/-- Witness for C1: a transcript of 10 `'open'` polls with ceiling 10 resolves
Timeout through the engine entry point. -/
theorem live_market_exit_polling_spec_witness :
    execute_market_exit "NIFTY24AUG24000CE" "NFO" "MIS" 10 "BUY" false none
      true "" none
      (fun _ => { success := true, status := "success", orderid := some "OID1" })
      (fun _ => .ok ⟨"open", 0, 0⟩) 10 = .timeout :=
  (live_market_exit_polling_spec "NIFTY24AUG24000CE" "NFO" "MIS" 10 "BUY"
    none true "" none
    (fun _ => { success := true, status := "success", orderid := some "OID1" })
    (fun _ => .ok ⟨"open", 0, 0⟩) 10 "OID1" rfl (by decide)).2.1
    (fun j _ => by decide)

/-- C4: in sandbox (analyze) mode the engine resolves a reference price from
the LTP lookup, falling back to the quote lookup's `ltp` field when the LTP is
missing or non-positive; when both sources yield a missing or non-positive
price the exit fails (`noPrice`) without resolving a fill price; otherwise,
once the bookkeeping order placement reports `success` with status `'success'`
or `'analyze'`, the exit succeeds with the resolved reference price as fill
price.  In particular, LTP `None` with quote `ltp = 75.0` succeeds at `75.0`,
and both sources unavailable fail. -/
theorem sandbox_market_exit_spec (symbol exchange product : String)
    (quantity : Int) (side : String) (ltp0 : Option Rat) (qSuccess : Bool)
    (qStatus : String) (qLtp : Option Rat) (place : OrderData → PlaceOrderResp)
    (ts : Nat → PollResp) (max_retries : Nat) :
    (execute_market_exit symbol exchange product quantity side true ltp0
        qSuccess qStatus qLtp place ts max_retries
      = execute_sandbox_market_exit symbol exchange product quantity
          (if side = "BUY" then "SELL" else "BUY") ltp0 qSuccess qStatus qLtp
          place) ∧
    (∀ action,
      ((∀ v, ltp0 = some v → v ≤ 0) →
        (qSuccess = true → qStatus = "success" → ∀ w, qLtp = some w → w ≤ 0) →
        execute_sandbox_market_exit symbol exchange product quantity action
          ltp0 qSuccess qStatus qLtp place = .noPrice) ∧
      (∀ v, ltp0 = some v → 0 < v →
        (place { symbol := symbol, exchange := exchange, action := action,
                 quantity := quantity, price := "0", product := product,
                 pricetype := "MARKET" }).success = true →
        ((place { symbol := symbol, exchange := exchange, action := action,
                  quantity := quantity, price := "0", product := product,
                  pricetype := "MARKET" }).status = "success" ∨
         (place { symbol := symbol, exchange := exchange, action := action,
                  quantity := quantity, price := "0", product := product,
                  pricetype := "MARKET" }).status = "analyze") →
        execute_sandbox_market_exit symbol exchange product quantity action
          ltp0 qSuccess qStatus qLtp place = .filled v) ∧
      (∀ w, (∀ v, ltp0 = some v → v ≤ 0) → qSuccess = true →
        qStatus = "success" → qLtp = some w → 0 < w →
        (place { symbol := symbol, exchange := exchange, action := action,
                 quantity := quantity, price := "0", product := product,
                 pricetype := "MARKET" }).success = true →
        ((place { symbol := symbol, exchange := exchange, action := action,
                  quantity := quantity, price := "0", product := product,
                  pricetype := "MARKET" }).status = "success" ∨
         (place { symbol := symbol, exchange := exchange, action := action,
                  quantity := quantity, price := "0", product := product,
                  pricetype := "MARKET" }).status = "analyze") →
        execute_sandbox_market_exit symbol exchange product quantity action
          ltp0 qSuccess qStatus qLtp place = .filled w)) ∧
    (execute_sandbox_market_exit "X" "NSE" "MIS" 10 "SELL" none true "success"
        (some 75) (fun _ => ⟨true, "success", some "1"⟩) = .filled 75) ∧
    (execute_sandbox_market_exit "X" "NSE" "MIS" 10 "SELL" none true "success"
        none (fun _ => ⟨true, "success", some "1"⟩) = .noPrice) := by
  refine ⟨by simp [execute_market_exit], ?_, by decide, by decide⟩
  intro action
  refine ⟨?_, ?_, ?_⟩
  · intro h0 hq
    unfold execute_sandbox_market_exit sandboxResolvedLtp
    cases hltp : ltp0 with
    | none =>
      by_cases hqq : qSuccess = true ∧ qStatus = "success"
      · cases hqltp : qLtp with
        | none => simp [hqq]
        | some w => simp [hqq, hq hqq.1 hqq.2 w hqltp]
      · simp [hqq]
    | some v =>
      have hv := h0 v hltp
      by_cases hqq : qSuccess = true ∧ qStatus = "success"
      · cases hqltp : qLtp with
        | none => simp [hv, hqq]
        | some w => simp [hv, hqq, hq hqq.1 hqq.2 w hqltp]
      · simp [hv, hqq]
  · intro v hltp hv hsucc hstat
    unfold execute_sandbox_market_exit sandboxResolvedLtp
    rw [hltp]
    rcases hstat with hstat | hstat <;> simp [not_le.mpr hv, hsucc, hstat]
  · intro w h0 hqs hqst hqltp hw hsucc hstat
    unfold execute_sandbox_market_exit sandboxResolvedLtp
    cases hltp : ltp0 with
    | none =>
      rcases hstat with hstat | hstat <;>
        simp [hqs, hqst, hqltp, not_le.mpr hw, hsucc, hstat]
    | some v =>
      have hv := h0 v hltp
      rcases hstat with hstat | hstat <;>
        simp [hv, hqs, hqst, hqltp, not_le.mpr hw, hsucc, hstat]

/-- Witness for C4: LTP unavailable but the quote lookup returns `ltp = 75.0`;
the sandbox exit succeeds with fill price 75. -/
theorem sandbox_market_exit_spec_witness :
    execute_sandbox_market_exit "X" "NSE" "MIS" 10 "SELL" none true "success"
      (some 75) (fun _ => ⟨true, "success", some "1"⟩) = .filled 75 :=
  ((sandbox_market_exit_spec "X" "NSE" "MIS" 10 "SELL" none true "success"
      (some 75) (fun _ => ⟨true, "success", some "1"⟩) (fun _ => .fetchErr)
      10).2.1 "SELL").2.2 75 (fun v hv => by cases hv) rfl rfl rfl (by decide)
    (by decide) (Or.inl (by decide))

/-! ## Helper lemmas: inversion of the AddManualLeg validation -/

theorem validate_manual_leg_ok_inv (req : AddLegRequest) (leg : NewLeg)
    (h : validate_manual_leg req = .ok leg) :
    leg.entry_price = req.entry_price ∧
    (leg.side = "BUY" ∨ leg.side = "SELL") ∧
    slCalc req.entry_price leg.side req.sl_percent = .ok leg.sl_price ∧
    targetCalc req.entry_price leg.side req.target_percent = .ok leg.target_price ∧
    req.leg_key = some leg.leg_key := by
  unfold validate_manual_leg at h
  simp only [] at h
  repeat' split at h
  all_goals try exact Except.noConfusion h
  all_goals injection h with h
  all_goals subst h
  all_goals simp_all
  all_goals tauto

theorem create_manual_leg_ok_inv (store : List (String × StrategyState))
    (instance_id : String) (req : AddLegRequest) (leg : NewLeg)
    (store' : List (String × StrategyState))
    (h : create_manual_leg_endpoint store instance_id req = .ok leg store') :
    validate_manual_leg req = .ok leg := by
  unfold create_manual_leg_endpoint at h
  cases hv : validate_manual_leg req with
  | error msg =>
    rw [hv] at h
    exact AddLegOutcome.noConfusion h
  | ok leg0 =>
    rw [hv] at h
    unfold add_manual_strategy_leg at h
    cases hl : store.lookup instance_id with
    | none =>
      rw [hl] at h
      exact AddLegOutcome.noConfusion h
    | some st =>
      rw [hl] at h
      dsimp only [] at h
      by_cases hd : (st.legs.lookup leg0.leg_key).isSome
      · rw [if_pos hd] at h
        exact AddLegOutcome.noConfusion h
      · rw [if_neg hd] at h
        injection h with h1 h2
        subst h1
        rfl

theorem create_manual_leg_not_invalid (store : List (String × StrategyState))
    (instance_id : String) (req : AddLegRequest)
    (h : (create_manual_leg_endpoint store instance_id req).isInvalidArg = false) :
    ∃ leg, validate_manual_leg req = .ok leg := by
  unfold create_manual_leg_endpoint at h
  cases hv : validate_manual_leg req with
  | error msg =>
    rw [hv] at h
    simp [AddLegOutcome.isInvalidArg] at h
  | ok leg => exact ⟨leg, rfl⟩

theorem slCalc_ok_pos (entry : Option Rat) (side : String) (p : Rat)
    (sl : Option Rat) (h : slCalc entry side (some p) = .ok sl) : 0 < p := by
  by_cases hp : p ≤ 0
  · cases entry <;> simp [slCalc, hp] at h
  · exact not_le.mp hp

theorem targetCalc_ok_pos (entry : Option Rat) (side : String) (p : Rat)
    (tp : Option Rat) (h : targetCalc entry side (some p) = .ok tp) : 0 < p := by
  by_cases hp : p ≤ 0
  · cases entry <;> simp [targetCalc, hp] at h
  · exact not_le.mp hp

theorem slCalc_ok_val (e : Rat) (side : String) (p : Rat) (sl : Option Rat)
    (h : slCalc (some e) side (some p) = .ok sl) :
    sl = some (if side = "BUY" then e * (1 - p) else e * (1 + p)) := by
  by_cases hp : p ≤ 0
  · simp [slCalc, hp] at h
  · simp only [slCalc, if_neg hp] at h
    injection h with h
    exact h.symm

theorem targetCalc_ok_val (e : Rat) (side : String) (p : Rat) (tp : Option Rat)
    (h : targetCalc (some e) side (some p) = .ok tp) :
    tp = some (if side = "BUY" then e * (1 + p) else e * (1 - p)) := by
  by_cases hp : p ≤ 0
  · simp [targetCalc, hp] at h
  · simp only [targetCalc, if_neg hp] at h
    injection h with h
    exact h.symm

theorem slCalc_ok_none (entry : Option Rat) (side : String) (slp : Option Rat)
    (sl : Option Rat) (h : slCalc entry side slp = .ok sl)
    (habsent : entry = none ∨ slp = none) : sl = none := by
  rcases habsent with hx | hx
  · subst hx
    cases slp with
    | none =>
      simp only [slCalc] at h
      injection h with h
      exact h.symm
    | some p =>
      by_cases hp : p ≤ 0
      · simp [slCalc, hp] at h
      · simp only [slCalc, if_neg hp] at h
        injection h with h
        exact h.symm
  · subst hx
    cases entry <;>
      (simp only [slCalc] at h
       injection h with h
       exact h.symm)

theorem targetCalc_ok_none (entry : Option Rat) (side : String)
    (tpp : Option Rat) (tp : Option Rat) (h : targetCalc entry side tpp = .ok tp)
    (habsent : entry = none ∨ tpp = none) : tp = none := by
  rcases habsent with hx | hx
  · subst hx
    cases tpp with
    | none =>
      simp only [targetCalc] at h
      injection h with h
      exact h.symm
    | some p =>
      by_cases hp : p ≤ 0
      · simp [targetCalc, hp] at h
      · simp only [targetCalc, if_neg hp] at h
        injection h with h
        exact h.symm
  · subst hx
    cases entry <;>
      (simp only [targetCalc] at h
       injection h with h
       exact h.symm)

/-- C6: for every AddManualLeg call accepted with a known `entry_price` and a
supplied percent, the stored prices follow the calculator formulas
(`sl_price = entry_price * (1 ∓ sl_percent)` and
`target_price = entry_price * (1 ± target_percent)`, signs by side), and the
percent was necessarily positive; a supplied non-positive percent is rejected
as a validation error whether or not `entry_price` is known; when
`entry_price` or the respective percent is absent, the corresponding price is
left unset. -/
theorem add_manual_leg_price_formulas (store : List (String × StrategyState))
    (instance_id : String) (req : AddLegRequest) :
    (∀ leg store',
      create_manual_leg_endpoint store instance_id req = .ok leg store' →
      (∀ e p, req.entry_price = some e → req.sl_percent = some p →
        0 < p ∧ leg.sl_price
          = some (if leg.side = "BUY" then e * (1 - p) else e * (1 + p))) ∧
      (∀ e p, req.entry_price = some e → req.target_percent = some p →
        0 < p ∧ leg.target_price
          = some (if leg.side = "BUY" then e * (1 + p) else e * (1 - p))) ∧
      ((req.entry_price = none ∨ req.sl_percent = none) → leg.sl_price = none) ∧
      ((req.entry_price = none ∨ req.target_percent = none) →
        leg.target_price = none)) ∧
    (∀ p, req.sl_percent = some p → p ≤ 0 →
      (create_manual_leg_endpoint store instance_id req).isInvalidArg = true) ∧
    (∀ p, req.target_percent = some p → p ≤ 0 →
      (create_manual_leg_endpoint store instance_id req).isInvalidArg = true) := by
  refine ⟨?_, ?_, ?_⟩
  · intro leg store' h
    have hv := create_manual_leg_ok_inv store instance_id req leg store' h
    obtain ⟨hentry, hside, hsl, htp, hkey⟩ := validate_manual_leg_ok_inv req leg hv
    refine ⟨?_, ?_, ?_, ?_⟩
    · intro e p he hp
      rw [he, hp] at hsl
      exact ⟨slCalc_ok_pos _ _ _ _ hsl, slCalc_ok_val e leg.side p _ hsl⟩
    · intro e p he hp
      rw [he, hp] at htp
      exact ⟨targetCalc_ok_pos _ _ _ _ htp, targetCalc_ok_val e leg.side p _ htp⟩
    · intro habs
      exact slCalc_ok_none _ _ _ _ hsl habs
    · intro habs
      exact targetCalc_ok_none _ _ _ _ htp habs
  · intro p hp hp0
    cases hres : (create_manual_leg_endpoint store instance_id req).isInvalidArg with
    | true => rfl
    | false =>
      exfalso
      obtain ⟨leg, hvok⟩ := create_manual_leg_not_invalid store instance_id req hres
      obtain ⟨-, -, hsl, -, -⟩ := validate_manual_leg_ok_inv req leg hvok
      rw [hp] at hsl
      exact absurd (slCalc_ok_pos _ _ _ _ hsl) (not_lt.mpr hp0)
  · intro p hp hp0
    cases hres : (create_manual_leg_endpoint store instance_id req).isInvalidArg with
    | true => rfl
    | false =>
      exfalso
      obtain ⟨leg, hvok⟩ := create_manual_leg_not_invalid store instance_id req hres
      obtain ⟨-, -, -, htp, -⟩ := validate_manual_leg_ok_inv req leg hvok
      rw [hp] at htp
      exact absurd (targetCalc_ok_pos _ _ _ _ htp) (not_lt.mpr hp0)

/-- A strategy state with no legs yet, used as a concrete fixture. -/
def demoState : StrategyState :=
  { status := some "RUNNING", legs := [], trade_history := [],
    config_product := none }

/-- A one-strategy store, used as a concrete fixture. -/
def demoStore : List (String × StrategyState) := [("I1", demoState)]

/-- A concrete valid AddManualLeg request (TRACK mode, BUY, entry 100,
`sl_percent = 2`, `target_percent = 3`). -/
def demoAddReq : AddLegRequest :=
  { leg_key := some "L1", symbol := some "NIFTY", exchange := some "NFO",
    product := some "MIS", quantity := some 50, side := some "BUY",
    entry_price := some 100, sl_percent := some 2, target_percent := some 3,
    leg_pair_name := none, is_main_leg := some true, reentry_limit := none,
    reexecute_limit := none, mode := some "TRACK", wait_trade_percent := none,
    wait_baseline_price := none }

/-- The leg `demoAddReq` produces. -/
def demoNewLeg : NewLeg :=
  { leg_key := "L1", symbol := "NIFTY", exchange := "NFO", product := "MIS",
    quantity := 50, side := "BUY", entry_price := some 100,
    sl_price := some ((100 : Rat) * (1 - 2)),
    target_price := some ((100 : Rat) * (1 + 3)), sl_percent := some 2,
    target_percent := some 3, leg_pair_name := none, is_main_leg := true,
    reentry_limit := none, reexecute_limit := none, status := "IN_POSITION",
    wait_trade_percent := none, wait_baseline_price := none }

/-- The strategy state after `demoAddReq` lands on `demoState`. -/
def demoStateAfter : StrategyState :=
  { status := some "RUNNING", legs := [("L1", some (storedLeg demoNewLeg))],
    trade_history := [], config_product := none }

/-- The store after `demoAddReq` lands on `demoStore`. -/
def demoStoreAfter : List (String × StrategyState) := [("I1", demoStateAfter)]

/-- Witness for C6 at `demoAddReq`: the stored SL price follows the BUY
formula and the percent was positive. -/
theorem add_manual_leg_price_formulas_witness :
    0 < (2 : Rat) ∧ demoNewLeg.sl_price
      = some (if demoNewLeg.side = "BUY" then (100 : Rat) * (1 - 2)
              else (100 : Rat) * (1 + 2)) :=
  ((add_manual_leg_price_formulas demoStore "I1" demoAddReq).1 demoNewLeg
    demoStoreAfter rfl).1 100 2 rfl rfl

/-- `demoAddReq` with `entry_price = 0` (the endpoint does not require a
positive entry price). -/
def cexAddReq : AddLegRequest := { demoAddReq with entry_price := some 0 }

/-- The leg `cexAddReq` produces: entry 0, SL/Target both 0. -/
def cexNewLeg : NewLeg :=
  { demoNewLeg with
    entry_price := some 0
    sl_price := some ((0 : Rat) * (1 - 2))
    target_price := some ((0 : Rat) * (1 + 3)) }

/-- The store after `cexAddReq` lands on `demoStore`. -/
def cexStoreAfter : List (String × StrategyState) :=
  [("I1", { status := some "RUNNING",
            legs := [("L1", some (storedLeg cexNewLeg))],
            trade_history := [], config_product := none })]

/-- Counterexample to C7 as stated: AddManualLeg accepts a BUY leg with known
`entry_price = 0` and `sl_percent = 2`, and the stored leg has
`sl_price = 0 * (1 - 2) = 0`, so `sl_price < entry_price` fails. -/
theorem add_manual_leg_ordering_cex :
    create_manual_leg_endpoint demoStore "I1" cexAddReq
      = .ok cexNewLeg cexStoreAfter ∧
    cexNewLeg.side = "BUY" ∧ cexNewLeg.entry_price = some 0 ∧
    cexNewLeg.sl_price = some ((0 : Rat) * (1 - 2)) ∧
    ¬ ((0 : Rat) * (1 - 2) < 0) := by
  refine ⟨rfl, rfl, rfl, rfl, ?_⟩
  norm_num

/-- C7 amended: for every leg accepted by AddManualLeg with a known strictly
positive entry price, the computed SL/Target prices are ordered consistently
with the side: BUY ⇒ `sl_price < entry_price < target_price`, SELL ⇒
`target_price < entry_price < sl_price`, for whichever of the two prices is
present. -/
theorem add_manual_leg_price_ordering (store : List (String × StrategyState))
    (instance_id : String) (req : AddLegRequest) (leg : NewLeg)
    (store' : List (String × StrategyState)) (e : Rat)
    (h : create_manual_leg_endpoint store instance_id req = .ok leg store')
    (hentry : leg.entry_price = some e) (he : 0 < e) :
    (leg.side = "BUY" →
      (∀ s, leg.sl_price = some s → s < e) ∧
      (∀ t, leg.target_price = some t → e < t)) ∧
    (leg.side = "SELL" →
      (∀ t, leg.target_price = some t → t < e) ∧
      (∀ s, leg.sl_price = some s → e < s)) := by
  have hv := create_manual_leg_ok_inv store instance_id req leg store' h
  obtain ⟨hentry', hside, hsl, htp, -⟩ := validate_manual_leg_ok_inv req leg hv
  have hre : req.entry_price = some e := hentry'.symm.trans hentry
  rw [hre] at hsl htp
  constructor
  · intro hb
    constructor
    · intro s hs
      cases hslp : req.sl_percent with
      | none =>
        rw [slCalc_ok_none (some e) leg.side req.sl_percent _ hsl
          (Or.inr hslp)] at hs
        exact Option.noConfusion hs
      | some p =>
        rw [hslp] at hsl
        have hp := slCalc_ok_pos _ _ _ _ hsl
        have hval := slCalc_ok_val e leg.side p _ hsl
        rw [hb, if_pos rfl] at hval
        have hes := Option.some.inj (hval.symm.trans hs)
        nlinarith [mul_pos he hp]
    · intro t ht
      cases htpp : req.target_percent with
      | none =>
        rw [targetCalc_ok_none (some e) leg.side req.target_percent _ htp
          (Or.inr htpp)] at ht
        exact Option.noConfusion ht
      | some p =>
        rw [htpp] at htp
        have hp := targetCalc_ok_pos _ _ _ _ htp
        have hval := targetCalc_ok_val e leg.side p _ htp
        rw [hb, if_pos rfl] at hval
        have hes := Option.some.inj (hval.symm.trans ht)
        nlinarith [mul_pos he hp]
  · intro hb
    have hnb : leg.side ≠ "BUY" := by
      rw [hb]
      decide
    constructor
    · intro t ht
      cases htpp : req.target_percent with
      | none =>
        rw [targetCalc_ok_none (some e) leg.side req.target_percent _ htp
          (Or.inr htpp)] at ht
        exact Option.noConfusion ht
      | some p =>
        rw [htpp] at htp
        have hp := targetCalc_ok_pos _ _ _ _ htp
        have hval := targetCalc_ok_val e leg.side p _ htp
        rw [if_neg hnb] at hval
        have hes := Option.some.inj (hval.symm.trans ht)
        nlinarith [mul_pos he hp]
    · intro s hs
      cases hslp : req.sl_percent with
      | none =>
        rw [slCalc_ok_none (some e) leg.side req.sl_percent _ hsl
          (Or.inr hslp)] at hs
        exact Option.noConfusion hs
      | some p =>
        rw [hslp] at hsl
        have hp := slCalc_ok_pos _ _ _ _ hsl
        have hval := slCalc_ok_val e leg.side p _ hsl
        rw [if_neg hnb] at hval
        have hes := Option.some.inj (hval.symm.trans hs)
        nlinarith [mul_pos he hp]

/-- Witness for the amended C7 at `demoAddReq` (BUY, entry 100, sl 100*(1-2),
target 100*(1+3)). -/
theorem add_manual_leg_price_ordering_witness :
    ((100 : Rat) * (1 - 2) < 100) ∧ ((100 : Rat) < 100 * (1 + 3)) := by
  have h := add_manual_leg_price_ordering demoStore "I1" demoAddReq demoNewLeg
    demoStoreAfter 100 rfl rfl (by norm_num)
  exact ⟨(h.1 rfl).1 ((100 : Rat) * (1 - 2)) rfl,
         (h.1 rfl).2 ((100 : Rat) * (1 + 3)) rfl⟩

/-- Counterexample to C8 as stated: an AddManualLeg call whose `leg_key`
(`"L1"`) is already present in the strategy's legs map but whose `side` field
is invalid fails with the generic validation rejection, not with the
DuplicateLeg conflict. -/
theorem add_manual_leg_duplicate_cex :
    create_manual_leg_endpoint demoStoreAfter "I1"
        { demoAddReq with side := some "FOO" }
      = .invalidArg "side must be BUY or SELL" ∧
    AddLegOutcome.invalidArg "side must be BUY or SELL"
      ≠ AddLegOutcome.duplicateLeg :=
  ⟨rfl, fun h => AddLegOutcome.noConfusion h⟩

/-- C8 amended: every AddManualLeg call that passes request validation and
whose `leg_key` is already present in the strategy's legs map fails with the
DuplicateLeg conflict (a distinct outcome from validation errors, producing no
updated store, so the existing leg is not overwritten), regardless of the
remaining field values; and such a call naming a non-existent `instance_id`
fails with StateNotFound. -/
theorem add_manual_leg_duplicate_spec (store : List (String × StrategyState))
    (instance_id : String) (req : AddLegRequest) (lk : String)
    (hvalid : (create_manual_leg_endpoint store instance_id req).isInvalidArg
      = false)
    (hlk : req.leg_key = some lk) :
    (∀ st, store.lookup instance_id = some st → (st.legs.lookup lk).isSome →
      create_manual_leg_endpoint store instance_id req = .duplicateLeg) ∧
    (store.lookup instance_id = none →
      create_manual_leg_endpoint store instance_id req = .stateNotFound) := by
  obtain ⟨leg, hvok⟩ := create_manual_leg_not_invalid store instance_id req hvalid
  obtain ⟨-, -, -, -, hkey⟩ := validate_manual_leg_ok_inv req leg hvok
  have hlk' : leg.leg_key = lk := by
    rw [hlk] at hkey
    exact Option.some.inj hkey.symm
  constructor
  · intro st hst hdup
    unfold create_manual_leg_endpoint
    rw [hvok]
    dsimp only []
    unfold add_manual_strategy_leg
    rw [hst]
    dsimp only []
    rw [hlk', if_pos hdup]
  · intro hnone
    unfold create_manual_leg_endpoint
    rw [hvok]
    dsimp only []
    unfold add_manual_strategy_leg
    rw [hnone]

/-- Witness for the amended C8: re-adding `leg_key = "L1"` to the strategy
that already holds it yields the DuplicateLeg outcome. -/
theorem add_manual_leg_duplicate_spec_witness :
    create_manual_leg_endpoint demoStoreAfter "I1" demoAddReq
      = .duplicateLeg :=
  (add_manual_leg_duplicate_spec demoStoreAfter "I1" demoAddReq "L1" rfl
    rfl).1 demoStateAfter rfl rfl

/-! ## Helper lemmas: the manual-exit endpoint -/

theorem manual_exit_resolve_inv (state : StrategyState) (leg_key : String)
    (req : ExitRequest) (env : ExitEnv) (leg : Leg) (r : ResolvedExit)
    (hfind : state.legs.lookup leg_key = some (some leg))
    (h : manual_exit_resolve (some state) leg_key req env = .ok r) :
    r.leg_type = leg.leg_type.getD "MANUAL" ∧
    r.strategy_status = state.status.getD "COMPLETED" := by
  unfold manual_exit_resolve at h
  simp only [] at h
  repeat' split at h
  all_goals try exact Except.noConfusion h
  all_goals injection h with h
  all_goals subst h
  all_goals simp_all

theorem manual_exit_endpoint_ok_inv (state? : Option StrategyState)
    (leg_key : String) (req : ExitRequest) (env : ExitEnv) (db ov : Bool)
    (p : Option Rat) (st : String) (o : Option (String × Option Rat))
    (h : manual_exit_leg_endpoint state? leg_key req env db ov = .ok p st o) :
    db = true ∧
    ∃ r, manual_exit_resolve state? leg_key req env = .ok r ∧
      r.exit_price = p ∧ r.exit_status = st ∧
      o = (if r.leg_type ≠ "MANUAL" ∧ r.strategy_status = "RUNNING" then
             (if ov then some ("MANUAL_EXIT", p) else none)
           else none) := by
  unfold manual_exit_leg_endpoint at h
  cases hres : manual_exit_resolve state? leg_key req env with
  | error e =>
    rw [hres] at h
    cases e
    exact ExitOutcome.noConfusion h
  | ok r =>
    rw [hres] at h
    cases db with
    | false => simp at h
    | true =>
      simp only [Bool.not_true, if_neg, ite_false, Bool.false_eq_true,
        not_false_eq_true, if_true] at h
      rw [if_neg (by simp)] at h
      injection h with h1 h2 h3
      subst h1
      subst h2
      exact ⟨rfl, r, rfl, rfl, rfl, by rw [← h3]⟩

theorem manual_exit_endpoint_of_resolve (state? : Option StrategyState)
    (leg_key : String) (req : ExitRequest) (env : ExitEnv) (ov : Bool)
    (r : ResolvedExit)
    (hres : manual_exit_resolve state? leg_key req env = .ok r) :
    manual_exit_leg_endpoint state? leg_key req env true ov
      = .ok r.exit_price r.exit_status
          (if r.leg_type ≠ "MANUAL" ∧ r.strategy_status = "RUNNING" then
             (if ov then some ("MANUAL_EXIT", r.exit_price) else none)
           else none) := by
  unfold manual_exit_leg_endpoint
  rw [hres]
  simp

/-- C5: after a successful ManualExitLeg commit, a MANUAL_EXIT override
carrying the committed exit price is published if and only if the leg's
`leg_type` is not MANUAL (a missing `leg_type` counts as MANUAL) and the
owning strategy's status is RUNNING; and a failing override publication is
swallowed — the same request with a broken override channel still reports
success with the identical committed exit price and status. -/
theorem manual_exit_override_publication (state : StrategyState)
    (leg_key : String) (req : ExitRequest) (env : ExitEnv) (db : Bool)
    (p : Option Rat) (st : String) (o : Option (String × Option Rat)) (leg : Leg)
    (hfind : state.legs.lookup leg_key = some (some leg))
    (h : manual_exit_leg_endpoint (some state) leg_key req env db true
      = .ok p st o) :
    ((leg.leg_type.getD "MANUAL" ≠ "MANUAL" ∧
        state.status.getD "COMPLETED" = "RUNNING") ↔
      o = some ("MANUAL_EXIT", p)) ∧
    ((leg.leg_type.getD "MANUAL" = "MANUAL" ∨
        state.status.getD "COMPLETED" ≠ "RUNNING") → o = none) ∧
    manual_exit_leg_endpoint (some state) leg_key req env db false
      = .ok p st none := by
  obtain ⟨hdb, r, hres, hp, hst, ho⟩ :=
    manual_exit_endpoint_ok_inv (some state) leg_key req env db true p st o h
  subst hdb
  obtain ⟨hlt, hss⟩ := manual_exit_resolve_inv state leg_key req env leg r hfind hres
  rw [hlt, hss] at ho
  by_cases hcond : leg.leg_type.getD "MANUAL" ≠ "MANUAL" ∧
      state.status.getD "COMPLETED" = "RUNNING"
  · rw [if_pos hcond, if_pos rfl] at ho
    refine ⟨⟨fun _ => ho, fun _ => hcond⟩, ?_, ?_⟩
    · intro hbad
      exfalso
      rcases hbad with hbad | hbad
      · exact hcond.1 hbad
      · exact hbad hcond.2
    · have := manual_exit_endpoint_of_resolve (some state) leg_key req env
        false r hres
      rw [hp, hst, hlt, hss, if_pos hcond] at this
      simpa using this
  · rw [if_neg hcond] at ho
    refine ⟨⟨fun hc => absurd hc hcond, fun hsome => ?_⟩, fun _ => ho, ?_⟩
    · rw [ho] at hsome
      exact Option.noConfusion hsome
    · have := manual_exit_endpoint_of_resolve (some state) leg_key req env
        false r hres
      rw [hp, hst, hlt, hss, if_neg hcond] at this
      exact this

/-- A STRATEGY-typed IN_POSITION BUY leg, used as a concrete fixture. -/
def ovLeg : Leg :=
  { status := some "IN_POSITION", entry_price := some 100, side := some "BUY",
    leg_type := some "STRATEGY", symbol := some "NIFTY",
    exchange := some "NFO", product := some "MIS", quantity := some 50,
    unrealized_pnl := none }

/-- A RUNNING strategy holding `ovLeg` under key `"L"`. -/
def ovState : StrategyState :=
  { status := some "RUNNING", legs := [("L", some ovLeg)],
    trade_history := [], config_product := none }

/-- A priced TARGET_HIT exit at 150 on a BUY leg with entry 100. -/
def ovReq : ExitRequest :=
  { exit_price := some 150, exit_status := some "TARGET_HIT",
    exit_at_market := false }

/-- A trivially healthy environment for the exit endpoint. -/
def ovEnv : ExitEnv :=
  { username := some "u", api_key := some "k", is_analyzer := true,
    ltp0 := some 1, qSuccess := true, qStatus := "success", qLtp := none,
    place := fun _ => ⟨true, "success", some "1"⟩, ts := fun _ => .fetchErr,
    max_retries := 0 }

/-- Witness for C5: with the override channel broken, the priced exit on a
STRATEGY leg of a RUNNING strategy still commits at 150 with no override. -/
theorem manual_exit_override_publication_witness :
    manual_exit_leg_endpoint (some ovState) "L" ovReq ovEnv true false
      = .ok (some 150) "TARGET_HIT" none :=
  (manual_exit_override_publication ovState "L" ovReq ovEnv true (some 150)
    "TARGET_HIT" (some ("MANUAL_EXIT", some 150)) ovLeg rfl rfl).2.2

theorem manual_exit_priced_resolve (state : StrategyState) (leg_key : String)
    (req : ExitRequest) (env : ExitEnv) (leg : Leg) (p : Rat) (st : String)
    (hmarket : req.exit_at_market = false)
    (hstat : req.exit_status = some st)
    (hst : st = "SL_HIT" ∨ st = "TARGET_HIT")
    (hprice : req.exit_price = some p) (hp : 0 < p)
    (hfind : state.legs.lookup leg_key = some (some leg))
    (hpos : leg.status = some "IN_POSITION") :
    manual_exit_resolve (some state) leg_key req env
      = (if truthyNum leg.entry_price ∧ truthyStr leg.side then
           match crossCheckExitPrice ((leg.side).getD "")
               ((leg.entry_price).getD 0) p st with
           | some e => .error e
           | none => .ok { exit_price := some p, exit_status := st,
                           leg_type := leg.leg_type.getD "MANUAL",
                           strategy_status := state.status.getD "COMPLETED" }
         else .ok { exit_price := some p, exit_status := st,
                    leg_type := leg.leg_type.getD "MANUAL",
                    strategy_status := state.status.getD "COMPLETED" }) := by
  have hstat' : resolveExitStatus req = .ok st := by
    unfold resolveExitStatus
    rw [hmarket, hstat]
    rcases hst with h | h <;> subst h <;> simp [truthyStr]
  have hprice' : resolveRequestExitPrice req = .ok (some p) := by
    unfold resolveRequestExitPrice
    rw [hmarket, hprice]
    simp [not_le.mpr hp]
  unfold manual_exit_resolve
  rw [hstat', hprice']
  dsimp only []
  rw [hfind]
  dsimp only []
  simp [hpos, hmarket]

/-- C3 amended: for every priced (non-market) ManualExitLeg call on an
IN_POSITION leg whose `entry_price` is known and non-zero and whose side is
BUY or SELL, the exit commits if and only if the exit price passes the
side/entry cross-check with strict inequalities: TARGET_HIT needs
`exit_price > entry_price` for BUY and `< entry_price` for SELL; SL_HIT needs
`exit_price < entry_price` for BUY and `> entry_price` for SELL; any
violation (equality included) is rejected and the leg is not exited. -/
theorem priced_exit_cross_check_spec (state : StrategyState) (leg_key : String)
    (req : ExitRequest) (env : ExitEnv) (ov : Bool) (leg : Leg) (p e : Rat)
    (s st : String)
    (hmarket : req.exit_at_market = false)
    (hstat : req.exit_status = some st)
    (hst : st = "SL_HIT" ∨ st = "TARGET_HIT")
    (hprice : req.exit_price = some p) (hp : 0 < p)
    (hfind : state.legs.lookup leg_key = some (some leg))
    (hpos : leg.status = some "IN_POSITION")
    (hentry : leg.entry_price = some e) (he : e ≠ 0)
    (hside : leg.side = some s) (hs : s = "BUY" ∨ s = "SELL") :
    (manual_exit_leg_endpoint (some state) leg_key req env true ov).isOk = true
      ↔ ((st = "TARGET_HIT" → ((s = "BUY" → e < p) ∧ (s = "SELL" → p < e))) ∧
         (st = "SL_HIT" → ((s = "BUY" → p < e) ∧ (s = "SELL" → e < p)))) := by
  have hres := manual_exit_priced_resolve state leg_key req env leg p st
    hmarket hstat hst hprice hp hfind hpos
  rw [hentry, hside] at hres
  have htr : truthyNum (some e) = true := by simp [truthyNum, he]
  have hts : truthyStr (some s) = true := by
    rcases hs with h | h <;> subst h <;> decide
  rw [htr, hts] at hres
  simp only [and_self, if_true, Option.getD_some] at hres
  rcases hst with hst | hst <;> subst hst <;> rcases hs with hs | hs <;>
    subst hs
  · by_cases hpe : e ≤ p
    · simp [crossCheckExitPrice, hpe] at hres
      unfold manual_exit_leg_endpoint
      rw [hres]
      simp [ExitOutcome.isOk]
      linarith
    · simp [crossCheckExitPrice, hpe] at hres
      unfold manual_exit_leg_endpoint
      rw [hres]
      simp [ExitOutcome.isOk]
      linarith [not_le.mp hpe]
  · by_cases hpe : p ≤ e
    · simp [crossCheckExitPrice, hpe] at hres
      unfold manual_exit_leg_endpoint
      rw [hres]
      simp [ExitOutcome.isOk]
      linarith
    · simp [crossCheckExitPrice, hpe] at hres
      unfold manual_exit_leg_endpoint
      rw [hres]
      simp [ExitOutcome.isOk]
      linarith [not_le.mp hpe]
  · by_cases hpe : p ≤ e
    · simp [crossCheckExitPrice, hpe] at hres
      unfold manual_exit_leg_endpoint
      rw [hres]
      simp [ExitOutcome.isOk]
      linarith
    · simp [crossCheckExitPrice, hpe] at hres
      unfold manual_exit_leg_endpoint
      rw [hres]
      simp [ExitOutcome.isOk]
      linarith [not_le.mp hpe]
  · by_cases hpe : e ≤ p
    · simp [crossCheckExitPrice, hpe] at hres
      unfold manual_exit_leg_endpoint
      rw [hres]
      simp [ExitOutcome.isOk]
      linarith
    · simp [crossCheckExitPrice, hpe] at hres
      unfold manual_exit_leg_endpoint
      rw [hres]
      simp [ExitOutcome.isOk]
      linarith [not_le.mp hpe]

/-- `ovLeg` with entry price 0 and MANUAL leg type. -/
def zeroLeg : Leg :=
  { ovLeg with entry_price := some 0, leg_type := some "MANUAL" }

/-- A RUNNING strategy holding `zeroLeg` under key `"L"`. -/
def zeroState : StrategyState :=
  { status := some "RUNNING", legs := [("L", some zeroLeg)],
    trade_history := [], config_product := none }

/-- Counterexample to C3 as stated: a priced SL_HIT exit at price 5 on a BUY
leg whose known entry price is 0 commits (the endpoint's
`if entry_price and side:` treats the 0.0 entry price as falsy and skips the
cross-check entirely), although `exit_price < entry_price` (5 < 0) fails, so
the rejection the claim requires does not happen. -/
theorem priced_exit_cross_check_cex :
    manual_exit_leg_endpoint (some zeroState) "L"
        { exit_price := some 5, exit_status := some "SL_HIT",
          exit_at_market := false } ovEnv true true
      = .ok (some 5) "SL_HIT" none ∧
    ¬ ((5 : Rat) < 0) :=
  ⟨rfl, by norm_num⟩

/-- A priced TARGET_HIT exit at 101 (the claim's accepted example). -/
def req101 : ExitRequest :=
  { exit_price := some 101, exit_status := some "TARGET_HIT",
    exit_at_market := false }

/-- Witness for the amended C3: side BUY, entry 100, TARGET_HIT at 101 is
accepted. -/
theorem priced_exit_cross_check_spec_witness :
    (manual_exit_leg_endpoint (some ovState) "L" req101 ovEnv true true).isOk
      = true :=
  (priced_exit_cross_check_spec ovState "L" req101 ovEnv true ovLeg 101 100
    "BUY" "TARGET_HIT" rfl rfl (Or.inr rfl) rfl (by decide) rfl rfl rfl
    (by decide) rfl (Or.inl rfl)).mpr
    ⟨fun _ => ⟨fun _ => by norm_num, fun hbad => absurd hbad (by decide)⟩,
     fun hbad => absurd hbad (by decide)⟩

/-- `ovLeg` with MANUAL leg type (BUY, entry 100, IN_POSITION). -/
def mktLeg : Leg := { ovLeg with leg_type := some "MANUAL" }

/-- A RUNNING strategy holding `mktLeg` under key `"L"`. -/
def mktState : StrategyState :=
  { status := some "RUNNING", legs := [("L", some mktLeg)],
    trade_history := [], config_product := none }

/-- A market exit with caller-chosen status SL_HIT. -/
def mktReq : ExitRequest :=
  { exit_price := none, exit_status := some "SL_HIT", exit_at_market := true }

/-- An environment whose market exit engine (sandbox mode) resolves a fill
price of 150. -/
def mktEnv : ExitEnv := { ovEnv with ltp0 := some 150 }

/-- C10: for every market exit (`exit_at_market = true`) on an IN_POSITION
leg, the side/entry-price cross-check is skipped entirely — whatever fill
price the Market Exit Engine resolves is committed together with the
caller-chosen exit status (no hypothesis relates the fill price to the leg's
entry price or side).  In particular, a BUY leg with entry price 100 is
committed as SL_HIT at fill price 150. -/
theorem market_exit_skips_cross_check (state : StrategyState)
    (leg_key : String) (req : ExitRequest) (env : ExitEnv) (ov : Bool)
    (leg : Leg) (st : String) (f : Rat)
    (hmarket : req.exit_at_market = true)
    (hstat : resolveExitStatus req = .ok st)
    (hfind : state.legs.lookup leg_key = some (some leg))
    (hpos : leg.status = some "IN_POSITION")
    (hengine : marketExitPrice state leg env = .ok f) :
    manual_exit_leg_endpoint (some state) leg_key req env true ov
      = .ok (some f) st
          (if leg.leg_type.getD "MANUAL" ≠ "MANUAL" ∧
              state.status.getD "COMPLETED" = "RUNNING" then
             (if ov then some ("MANUAL_EXIT", some f) else none)
           else none) ∧
    manual_exit_leg_endpoint (some mktState) "L" mktReq mktEnv true true
      = .ok (some 150) "SL_HIT" none := by
  constructor
  · have hprice' : resolveRequestExitPrice req = .ok none := by
      unfold resolveRequestExitPrice
      rw [hmarket]
      simp
    have hres : manual_exit_resolve (some state) leg_key req env
        = .ok { exit_price := some f, exit_status := st,
                leg_type := leg.leg_type.getD "MANUAL",
                strategy_status := state.status.getD "COMPLETED" } := by
      unfold manual_exit_resolve
      rw [hstat, hprice']
      dsimp only []
      rw [hfind]
      dsimp only []
      simp [hpos, hmarket, hengine]
    have h := manual_exit_endpoint_of_resolve (some state) leg_key req env ov
      _ hres
    simpa using h
  · rfl

/-- Witness for C10: the concrete engine environment resolving 150 commits
the BUY/entry-100 leg as SL_HIT at 150. -/
theorem market_exit_skips_cross_check_witness :
    manual_exit_leg_endpoint (some mktState) "L" mktReq mktEnv true true
      = .ok (some 150) "SL_HIT" none :=
  (market_exit_skips_cross_check mktState "L" mktReq mktEnv true mktLeg
    "SL_HIT" 150 rfl rfl rfl rfl rfl).2

end OpenAlgo
